import Mathlib

/-!
Verification of the browser utility module in `static/js/main.js`.

Each JavaScript function relevant to the specification is shallowly
embedded as a Lean definition. DOM state (element content, container
children) is modelled explicitly; the single-threaded timer queue of the
browser is modelled as a step semantics over lists of timestamped events;
promise settlement and thrown exceptions are modelled with `Except`.
-/

/-- Unit list `['Bytes', 'KB', 'MB', 'GB', 'TB']` from `formatFileSize`. -/
def sizes : List String := ["Bytes", "KB", "MB", "GB", "TB"]

/-- JavaScript array indexing `sizes[i]`: an out-of-range read yields
`undefined`, which string concatenation renders as `"undefined"`. -/
def sizesGet (i : Nat) : String := sizes.getD i "undefined"

/-- Value of `(bytes / Math.pow(1024, i)).toFixed(2)` read as an integer count
of hundredths, where `p = 1024 ^ i`: `toFixed(2)` rounds `100 * bytes / p`
to the nearest integer, half away from zero, which for non-negative input is
`⌊100 * bytes / p + 1/2⌋ = (200 * bytes + p) / (2 * p)` in integer division. -/
def hundredths (bytes p : Nat) : Nat := (200 * bytes + p) / (2 * p)

/-- Decimal rendering of the fractional part `r` (with `0 < r < 100`) of a
count of hundredths, as `parseFloat` leaves it: trailing zeros stripped,
a leading zero kept for single-hundredth digits. -/
def fracStr (r : Nat) : String :=
  if r % 10 == 0 then Nat.repr (r / 10)
  else if r < 10 then "0" ++ Nat.repr r
  else Nat.repr r

/-- Rendering of `n` hundredths the way `parseFloat(x.toFixed(2))` prints when
concatenated into a string: an integer when `n` is a multiple of 100,
otherwise integer part, a dot, and the fractional digits without trailing
zeros. -/
def renderNum (n : Nat) : String :=
  if n % 100 == 0 then Nat.repr (n / 100)
  else Nat.repr (n / 100) ++ "." ++ fracStr (n % 100)

/-- Shallow embedding of `formatFileSize(bytes)`: returns `'0 Bytes'` for 0,
otherwise computes `i = Math.floor(Math.log(bytes) / Math.log(1024))`
(the floor of the base-1024 logarithm, `Nat.log 1024 bytes`) and renders
`parseFloat((bytes / Math.pow(1024, i)).toFixed(2)) + ' ' + sizes[i]`. -/
def formatFileSize (bytes : Nat) : String :=
  if bytes = 0 then "0 Bytes"
  else
    renderNum (hundredths bytes (1024 ^ Nat.log 1024 bytes)) ++ " " ++
      sizesGet (Nat.log 1024 bytes)

/-- Unit index in range means the rendered suffix is a genuine unit. -/
lemma sizesGet_mem (i : Nat) (h : i < 5) : sizesGet i ∈ sizes := by
  interval_cases i <;> decide

/-- Lower bound of the half-up rounding computed by `hundredths`. -/
lemma hundredths_le (b p : Nat) (hp : 0 < p) :
    (hundredths b p : ℚ) ≤ 100 * b / p + 1 / 2 := by
  have hkey : (100 * b / p + 1 / 2 : ℚ) = (200 * b + p) / (2 * p) := by
    field_simp
    ring
  rw [hkey, le_div_iff₀ (by positivity)]
  have hnat : hundredths b p * (2 * p) ≤ 200 * b + p := Nat.div_mul_le_self _ _
  exact_mod_cast hnat

/-- Upper bound of the half-up rounding computed by `hundredths`. -/
lemma lt_hundredths_succ (b p : Nat) (hp : 0 < p) :
    100 * (b : ℚ) / p + 1 / 2 < hundredths b p + 1 := by
  have hkey : (100 * b / p + 1 / 2 : ℚ) = (200 * b + p) / (2 * p) := by
    field_simp
    ring
  rw [hkey, div_lt_iff₀ (by positivity)]
  have hnat : 200 * b + p < (hundredths b p + 1) * (2 * p) :=
    (Nat.div_lt_iff_lt_mul (by positivity)).1 (Nat.lt_succ_self _)
  exact_mod_cast hnat

/-- Claim C1 (amended): for every positive `b` below `1024 ^ 5`,
`formatFileSize b` is a numeric part followed by a space and the unit at
index `⌊log₁₀₂₄ b⌋` of the unit list, which is one of Bytes/KB/MB/GB/TB;
and `formatFileSize 0` is exactly `"0 Bytes"`. -/
theorem formatFileSize_unit (b : Nat) (h0 : 0 < b) (h5 : b < 1024 ^ 5) :
    formatFileSize 0 = "0 Bytes" ∧
    sizesGet (Nat.log 1024 b) ∈ sizes ∧
    ∃ numStr : String,
      formatFileSize b = numStr ++ " " ++ sizesGet (Nat.log 1024 b) := by
  refine ⟨rfl, sizesGet_mem _ (Nat.log_lt_of_lt_pow h0.ne' h5), ?_⟩
  exact ⟨renderNum (hundredths b (1024 ^ Nat.log 1024 b)), by
    simp [formatFileSize, h0.ne']⟩

/-- Witness for C1 at `b = 1536`. -/
theorem formatFileSize_unit_witness :
    0 < 1536 ∧ 1536 < 1024 ^ 5 ∧
      (formatFileSize 0 = "0 Bytes" ∧
       sizesGet (Nat.log 1024 1536) ∈ sizes ∧
       ∃ numStr : String,
         formatFileSize 1536 = numStr ++ " " ++ sizesGet (Nat.log 1024 1536)) :=
  ⟨by norm_num, by norm_num, formatFileSize_unit 1536 (by norm_num) (by norm_num)⟩

/-- Counterexample for C1 as stated: at `b = 2 * 1024 ^ 5` the unit index is
5, JavaScript reads `sizes[5]` as `undefined`, and the returned string is
`"2 undefined"`, which ends in none of the five units. -/
theorem formatFileSize_unit_counterexample :
    formatFileSize (2 * 1024 ^ 5) = "2 undefined" ∧
    ∀ u ∈ sizes, ¬ (u.data <:+ (formatFileSize (2 * 1024 ^ 5)).data) := by
  have hlog : Nat.log 1024 (2 * 1024 ^ 5) = 5 :=
    Nat.log_eq_of_pow_le_of_lt_pow (by norm_num) (by norm_num)
  have h1 : formatFileSize (2 * 1024 ^ 5) = "2 undefined" := by
    simp only [formatFileSize, if_neg (by norm_num : ¬ (2 * 1024 ^ 5 = 0)), hlog]
    decide
  rw [h1]
  exact ⟨rfl, by decide⟩

/-- Claim C2 (amended): for every positive `b`, the numeric part of
`formatFileSize b` denotes `n / 100` for the integer `n` obtained by
rounding `100 * b / 1024 ^ ⌊log₁₀₂₄ b⌋` to the nearest integer, halves up
(so the value is shown to at most two decimal places), rendered by
`renderNum`, which strips trailing zeros rather than always printing two
digits after the decimal point. -/
theorem formatFileSize_decimals (b : Nat) (h0 : 0 < b) :
    ∃ n : Nat,
      formatFileSize b = renderNum n ++ " " ++ sizesGet (Nat.log 1024 b) ∧
      (n : ℚ) ≤ 100 * b / 1024 ^ Nat.log 1024 b + 1 / 2 ∧
      100 * (b : ℚ) / 1024 ^ Nat.log 1024 b + 1 / 2 < n + 1 := by
  refine ⟨hundredths b (1024 ^ Nat.log 1024 b), ?_, ?_, ?_⟩
  · simp [formatFileSize, h0.ne']
  · exact_mod_cast hundredths_le b (1024 ^ Nat.log 1024 b) (by positivity)
  · exact_mod_cast lt_hundredths_succ b (1024 ^ Nat.log 1024 b) (by positivity)

/-- Witness for C2 at `b = 1536`. -/
theorem formatFileSize_decimals_witness :
    0 < 1536 ∧
    ∃ n : Nat,
      formatFileSize 1536 = renderNum n ++ " " ++ sizesGet (Nat.log 1024 1536) ∧
      (n : ℚ) ≤ 100 * 1536 / 1024 ^ Nat.log 1024 1536 + 1 / 2 ∧
      100 * (1536 : ℚ) / 1024 ^ Nat.log 1024 1536 + 1 / 2 < n + 1 :=
  ⟨by norm_num, formatFileSize_decimals 1536 (by norm_num)⟩

/-- Counterexample for C2 as stated: at `b = 1024` the value `1` would read
`"1.00 KB"` with exactly two decimal places, but `parseFloat` strips the
trailing zeros and the function returns `"1 KB"`, with no decimal point at
all. -/
theorem formatFileSize_decimals_counterexample :
    formatFileSize 1024 = "1 KB" ∧
    formatFileSize 1024 ≠ "1.00 KB" ∧
    '.' ∉ (formatFileSize 1024).data := by
  have hlog : Nat.log 1024 1024 = 1 :=
    Nat.log_eq_of_pow_le_of_lt_pow (by norm_num) (by norm_num)
  have h1 : formatFileSize 1024 = "1 KB" := by
    simp only [formatFileSize, if_neg (by norm_num : ¬ (1024 = 0)), hlog]
    decide
  rw [h1]
  exact ⟨rfl, by decide, by decide⟩

/-- A call event in the single-timer step model: `time` is the instant the
wrapper is invoked, `args` the arguments of that invocation. -/
structure CallEv (α : Type) where
  time : Nat
  args : α
deriving DecidableEq

/-- Single-timer semantics of the wrapper returned by `debounce(func, wait)`.
Each call runs `clearTimeout(timeout)` and re-arms the timer to run `later`
(which calls `func(...args)` with that call's own arguments) at its call time
plus `wait`; the pending timer therefore fires exactly when the next call
arrives no earlier than its deadline, and the final pending timer always
fires. Returns the invocations of `func` as timestamped events. -/
def debounceRun {α : Type} (wait : Nat) : List (CallEv α) → List (CallEv α)
  | [] => []
  | [c] => [⟨c.time + wait, c.args⟩]
  | c :: c' :: cs =>
    if c.time + wait ≤ c'.time then
      ⟨c.time + wait, c.args⟩ :: debounceRun wait (c' :: cs)
    else
      debounceRun wait (c' :: cs)

/-- Claim C3: calls in time order, each consecutive pair separated by
strictly less than `wait`, collapse to exactly one invocation of `func`,
fired `wait` after the last call with the last call's arguments. -/
theorem debounce_single_invocation {α : Type} (wait : Nat)
    (cs : List (CallEv α)) (clast : CallEv α)
    (hgaps : (cs ++ [clast]).Chain'
      (fun c c' => c.time ≤ c'.time ∧ c'.time - c.time < wait)) :
    debounceRun wait (cs ++ [clast]) = [⟨clast.time + wait, clast.args⟩] := by
  induction cs with
  | nil => rfl
  | cons c cs' ih =>
    cases cs' with
    | nil =>
      simp only [List.nil_append, List.cons_append] at hgaps
      rw [List.chain'_cons] at hgaps
      obtain ⟨⟨hle, hlt⟩, -⟩ := hgaps
      have hcond : ¬ (c.time + wait ≤ clast.time) := by omega
      simp only [List.nil_append, List.cons_append, debounceRun, if_neg hcond]
    | cons c'' cs'' =>
      simp only [List.cons_append] at hgaps
      rw [List.chain'_cons] at hgaps
      obtain ⟨⟨hle, hlt⟩, htail⟩ := hgaps
      have hcond : ¬ (c.time + wait ≤ c''.time) := by omega
      simp only [List.cons_append, debounceRun, if_neg hcond]
      exact ih htail

/-- Witness for C3: three calls at times 0, 5, 9 with `wait = 10` produce
exactly one invocation, at time 19, with the third call's argument. -/
theorem debounce_single_invocation_witness :
    ([⟨0, 1⟩, ⟨5, 2⟩] ++ [⟨9, 3⟩] : List (CallEv Nat)).Chain'
      (fun c c' => c.time ≤ c'.time ∧ c'.time - c.time < 10) ∧
    debounceRun 10 ([⟨0, 1⟩, ⟨5, 2⟩] ++ [⟨9, 3⟩] : List (CallEv Nat)) =
      [⟨19, 3⟩] := by
  have hchain : ([⟨0, 1⟩, ⟨5, 2⟩] ++ [⟨9, 3⟩] : List (CallEv Nat)).Chain'
      (fun c c' => c.time ≤ c'.time ∧ c'.time - c.time < 10) := by
    simp [List.chain'_cons]
  exact ⟨hchain, debounce_single_invocation 10 [⟨0, 1⟩, ⟨5, 2⟩] ⟨9, 3⟩ hchain⟩

/-- Single-timer semantics of the wrapper returned by `throttle(func, limit)`.
The state is the deadline of the pending reset timer: `none` models
`inThrottle` being falsy, `some tReset` models `inThrottle = true` with the
`inThrottle = false` reset scheduled at `tReset`. A call while not throttled
invokes `func` immediately (the call event itself is the invocation) and
schedules the reset at call time plus `limit`; a call while throttled is
dropped, unless the reset timer's deadline has already been reached, in which
case the reset fires first and the call invokes `func` again. -/
def throttleRun {α : Type} (limit : Nat) :
    Option Nat → List (CallEv α) → List (CallEv α)
  | _, [] => []
  | none, c :: cs => c :: throttleRun limit (some (c.time + limit)) cs
  | some tReset, c :: cs =>
    if tReset ≤ c.time then c :: throttleRun limit (some (c.time + limit)) cs
    else throttleRun limit (some tReset) cs

/-- While throttled with reset deadline `tReset`, every call strictly before
the deadline is dropped, and a final call at or after it fires. -/
lemma throttleRun_blackout {α : Type} (limit tReset : Nat)
    (mid : List (CallEv α)) (c2 : CallEv α)
    (hmid : ∀ c ∈ mid, c.time < tReset) (h2 : tReset ≤ c2.time) :
    throttleRun limit (some tReset) (mid ++ [c2]) =
      [c2] ++ throttleRun limit (some (c2.time + limit)) [] := by
  induction mid with
  | nil => simp [throttleRun, if_pos h2]
  | cons c mid' ih =>
    have hc : c.time < tReset := hmid c (List.mem_cons_self c mid')
    have htail : ∀ c' ∈ mid', c'.time < tReset :=
      fun c' hc' => hmid c' (List.mem_cons_of_mem c hc')
    simp only [List.cons_append, throttleRun, if_neg (by omega : ¬ tReset ≤ c.time)]
    exact ih htail

/-- Claim C4: the first call invokes `func` immediately with its own
arguments, every further call strictly before `limit` has elapsed since that
invocation is dropped, and the first call at or after the deadline invokes
`func` immediately again. -/
theorem throttle_leading_edge {α : Type} (limit : Nat)
    (c1 c2 : CallEv α) (mid : List (CallEv α))
    (hmid : ∀ c ∈ mid, c.time < c1.time + limit)
    (h2 : c1.time + limit ≤ c2.time) :
    throttleRun limit none (c1 :: (mid ++ [c2])) = [c1, c2] := by
  simp only [throttleRun]
  rw [throttleRun_blackout limit (c1.time + limit) mid c2 hmid h2]
  rfl

/-- Witness for C4: with `limit = 10`, calls at times 0, 3, 7, 10 invoke the
underlying function exactly at the first call and at the call at time 10. -/
theorem throttle_leading_edge_witness :
    (∀ c ∈ ([⟨3, 2⟩, ⟨7, 3⟩] : List (CallEv Nat)), c.time < 0 + 10) ∧
    0 + 10 ≤ 10 ∧
    throttleRun 10 none
      ((⟨0, 1⟩ : CallEv Nat) :: ([⟨3, 2⟩, ⟨7, 3⟩] ++ [⟨10, 4⟩])) =
      [⟨0, 1⟩, ⟨10, 4⟩] := by
  have hmid : ∀ c ∈ ([⟨3, 2⟩, ⟨7, 3⟩] : List (CallEv Nat)), c.time < 0 + 10 := by
    decide
  exact ⟨hmid, by norm_num,
    throttle_leading_edge 10 ⟨0, 1⟩ ⟨10, 4⟩ [⟨3, 2⟩, ⟨7, 3⟩] hmid (by norm_num)⟩

/-- DOM element model for `setLoading` and `storeOriginalText`: the
`innerHTML` content, the `disabled` flag, and the optional
`data-original-text` attribute (`none` models an absent attribute, for
which `getAttribute` returns null). -/
structure Elem where
  innerHTML : String
  disabled : Bool
  dataOriginalText : Option String
deriving DecidableEq

/-- Spinner markup assigned by `setLoading(btn, true)`. -/
def spinnerHTML : String :=
  "<i class=\"fas fa-spinner fa-spin me-2\"></i>Loading..."

/-- JavaScript fallback `btn.getAttribute('data-original-text') ||
btn.innerHTML`: `getAttribute` yields null for an absent attribute, and both
null and the empty string are falsy, so either one falls back to the
element's current content. -/
def origOrCurrent (el : Elem) : String :=
  match el.dataOriginalText with
  | none => el.innerHTML
  | some s => if s = "" then el.innerHTML else s

/-- Shallow embedding of `setLoading(element, loading)` on a resolved button
element: entering the loading state disables the element and replaces its
content with the spinner; leaving it re-enables the element and assigns the
stored original text, falling back to the current content. -/
def setLoading (el : Elem) (loading : Bool) : Elem :=
  if loading then { el with disabled := true, innerHTML := spinnerHTML }
  else { el with disabled := false, innerHTML := origOrCurrent el }

/-- Shallow embedding of `storeOriginalText` restricted to one element of the
collection it iterates over: sets `data-original-text` to the element's
current content. -/
def storeOriginalText (el : Elem) : Elem :=
  { el with dataOriginalText := some el.innerHTML }

/-- Claim C5 (amended): for an element with non-empty content, storing the
original text and then toggling the loading state on and off restores the
content exactly and leaves the element enabled. For empty content the `||`
fallback misfires (see the counterexample). -/
theorem setLoading_roundtrip (el : Elem) (h : el.innerHTML ≠ "") :
    (setLoading (setLoading (storeOriginalText el) true) false).innerHTML =
      el.innerHTML ∧
    (setLoading (setLoading (storeOriginalText el) true) false).disabled =
      false := by
  simp [setLoading, storeOriginalText, origOrCurrent, h]

/-- Witness for C5 on a button labelled `"Submit"`. -/
theorem setLoading_roundtrip_witness :
    (Elem.mk "Submit" false none).innerHTML ≠ "" ∧
    (setLoading (setLoading (storeOriginalText (Elem.mk "Submit" false none))
        true) false).innerHTML = (Elem.mk "Submit" false none).innerHTML ∧
    (setLoading (setLoading (storeOriginalText (Elem.mk "Submit" false none))
        true) false).disabled = false :=
  ⟨by decide, setLoading_roundtrip (Elem.mk "Submit" false none) (by decide)⟩

/-- Counterexample for C5 as stated: an element whose original content is the
empty string. `storeOriginalText` stores `""`, which is falsy, so
`setLoading(el, false)` falls back to the current content — the spinner —
and the round trip does not restore the original content. -/
theorem setLoading_roundtrip_counterexample :
    (setLoading (setLoading (storeOriginalText (Elem.mk "" false none)) true)
        false).innerHTML ≠ (Elem.mk "" false none).innerHTML ∧
    (setLoading (setLoading (storeOriginalText (Elem.mk "" false none)) true)
        false).innerHTML = spinnerHTML := by
  constructor
  · decide
  · decide

/-- Claim C9: on an element without the `data-original-text` attribute,
`setLoading(el, false)` re-enables the element but assigns its current
content back to itself; in particular a spinner inserted by
`setLoading(el, true)` is not removed. -/
theorem setLoading_false_no_attribute (el : Elem)
    (h : el.dataOriginalText = none) :
    (setLoading el false).innerHTML = el.innerHTML ∧
    (setLoading el false).disabled = false ∧
    (setLoading (setLoading el true) false).innerHTML = spinnerHTML := by
  simp [setLoading, origOrCurrent, h]

/-- Witness for C9 on a disabled button labelled `"Go"` with no stored
original text. -/
theorem setLoading_false_no_attribute_witness :
    (Elem.mk "Go" true none).dataOriginalText = none ∧
    ((setLoading (Elem.mk "Go" true none) false).innerHTML =
        (Elem.mk "Go" true none).innerHTML ∧
      (setLoading (Elem.mk "Go" true none) false).disabled = false ∧
      (setLoading (setLoading (Elem.mk "Go" true none) true) false).innerHTML =
        spinnerHTML) :=
  ⟨rfl, setLoading_false_no_attribute (Elem.mk "Go" true none) rfl⟩

/-- Shallow embedding of `isValidUrl(url)`. The browser's `new URL(url)`
constructor is external to the repository and is modelled abstractly as a
function `parseURL` returning `Except`: `Except.ok` when the constructor
succeeds, `Except.error` when it throws. The try/catch converts success to
`true` and any thrown error to `false`. -/
def isValidUrl {ε υ : Type} (parseURL : String → Except ε υ) (url : String) :
    Bool :=
  match parseURL url with
  | Except.ok _ => true
  | Except.error _ => false

/-- Claim C6: for every parser behaviour and every string, `isValidUrl`
returns `true` exactly when the URL constructor succeeds, and always returns
a boolean (the catch absorbs every thrown error, so the function itself
never throws). -/
theorem isValidUrl_iff_accepts {ε υ : Type}
    (parseURL : String → Except ε υ) (s : String) :
    (isValidUrl parseURL s = true ↔ ∃ u, parseURL s = Except.ok u) ∧
    (isValidUrl parseURL s = true ∨ isValidUrl parseURL s = false) := by
  cases h : parseURL s <;> simp [isValidUrl, h]

/-- An alert div created by `showAlert`: the message and the class string
`alert alert-TYPE alert-dismissible fade show`; the inner close button markup
is carried in `closeButton`. Surrounding template whitespace is elided. -/
structure AlertDiv where
  message : String
  className : String
  closeButton : String
deriving DecidableEq

/-- The div built at the top of `showAlert(message, type, container)`. -/
def mkAlertDiv (message ty : String) : AlertDiv :=
  { message := message
  , className := "alert alert-" ++ ty ++ " alert-dismissible fade show"
  , closeButton :=
      "<button type=\"button\" class=\"btn-close\" data-bs-dismiss=\"alert\"></button>" }

/-- Shallow embedding of the insertion step of `showAlert`: `containerArg` is
the explicit `container` argument (`none` models omitted or null),
`queryContainer` is `document.querySelector('.container')` (`none` models no
match, i.e. null). The JavaScript `container || document.querySelector(...)`
picks the first non-null value; `insertBefore` on a null target throws a
TypeError, otherwise the new div becomes the first child. Returns the
created div and the target container's new child list. -/
def showAlert (message ty : String)
    (containerArg queryContainer : Option (List AlertDiv)) :
    Except String (AlertDiv × List AlertDiv) :=
  let alertDiv := mkAlertDiv message ty
  match containerArg.orElse (fun _ => queryContainer) with
  | none => Except.error "TypeError: targetContainer is null"
  | some children => Except.ok (alertDiv, alertDiv :: children)

/-- The auto-dismiss callback scheduled 5000 ms after insertion:
`if (alertDiv.parentNode) alertDiv.remove()` removes the div only when it is
still attached to a parent, and does nothing otherwise. -/
def autoDismiss (alertDiv : AlertDiv) (children : List AlertDiv) :
    List AlertDiv :=
  if alertDiv ∈ children then children.erase alertDiv else children

/-- Claim C7: `showAlert` inserts exactly one alert div, as the container's
first child; the 5-second timer removes it again when it is still present,
restoring the previous children; and when the div was already removed, the
timer handler leaves the container unchanged and does not fail. -/
theorem showAlert_transient (message ty : String) (children : List AlertDiv)
    (q : Option (List AlertDiv)) (hfresh : mkAlertDiv message ty ∉ children) :
    ∃ newChildren : List AlertDiv,
      showAlert message ty (some children) q =
        Except.ok (mkAlertDiv message ty, newChildren) ∧
      newChildren.head? = some (mkAlertDiv message ty) ∧
      newChildren.count (mkAlertDiv message ty) = 1 ∧
      autoDismiss (mkAlertDiv message ty) newChildren = children ∧
      ∀ other : List AlertDiv, mkAlertDiv message ty ∉ other →
        autoDismiss (mkAlertDiv message ty) other = other := by
  refine ⟨mkAlertDiv message ty :: children, rfl, rfl, ?_, ?_, ?_⟩
  · simp [List.count_cons_self, List.count_eq_zero.2 hfresh]
  · simp [autoDismiss, List.erase_cons_head]
  · intro other hother
    simp [autoDismiss, hother]

/-- Witness for C7: the clipboard success banner inserted into an empty
container. -/
theorem showAlert_transient_witness :
    mkAlertDiv "Copied to clipboard!" "success" ∉ ([] : List AlertDiv) ∧
    ∃ newChildren : List AlertDiv,
      showAlert "Copied to clipboard!" "success" (some []) none =
        Except.ok (mkAlertDiv "Copied to clipboard!" "success", newChildren) ∧
      newChildren.head? = some (mkAlertDiv "Copied to clipboard!" "success") ∧
      newChildren.count (mkAlertDiv "Copied to clipboard!" "success") = 1 ∧
      autoDismiss (mkAlertDiv "Copied to clipboard!" "success") newChildren =
        [] ∧
      ∀ other : List AlertDiv,
        mkAlertDiv "Copied to clipboard!" "success" ∉ other →
          autoDismiss (mkAlertDiv "Copied to clipboard!" "success") other =
            other :=
  ⟨List.not_mem_nil _,
    showAlert_transient "Copied to clipboard!" "success" [] none
      (List.not_mem_nil _)⟩

/-- Claim C10: with the container argument omitted or null and no element
matching `'.container'`, `showAlert` throws (the insertion is attempted on a
null target) instead of falling back to any other container. -/
theorem showAlert_null_container (message ty : String) :
    (∃ e : String, showAlert message ty none none = Except.error e) ∧
    ∀ r : AlertDiv × List AlertDiv,
      showAlert message ty none none ≠ Except.ok r := by
  refine ⟨⟨"TypeError: targetContainer is null", rfl⟩, ?_⟩
  intro r h
  exact Except.noConfusion h

/-- Observable effects of `copyToClipboard`: the clipboard write request
itself, a console error entry, and a call to `showAlert` with a message and
a severity class. -/
inductive ClipEffect
  | write (text : String)
  | log (message : String)
  | alert (message severity : String)
deriving DecidableEq

/-- Shallow embedding of `copyToClipboard(text)`: `writeResult` is the
settled state of the promise `navigator.clipboard.writeText(text)`. On
fulfilment the `.then` handler shows the success alert; on rejection the
`.catch` handler logs the error and shows the error-severity alert. The
returned list is the sequence of observable effects, in order. -/
def copyToClipboard (text : String) (writeResult : Except String Unit) :
    List ClipEffect :=
  ClipEffect.write text ::
    match writeResult with
    | Except.ok _ => [ClipEffect.alert "Copied to clipboard!" "success"]
    | Except.error err =>
        [ClipEffect.log ("Could not copy text: " ++ err),
         ClipEffect.alert "Failed to copy to clipboard" "error"]

/-- Recognizes the clipboard write request among the effects. -/
def isWriteEffect : ClipEffect → Bool
  | ClipEffect.write _ => true
  | _ => false

/-- Recognizes an alert shown with the `error` severity. -/
def isErrorAlert : ClipEffect → Bool
  | ClipEffect.alert _ s => s == "error"
  | _ => false

/-- Claim C8: when the clipboard write rejects, the error is logged and
exactly one error-severity alert is shown, and the write is attempted exactly
once (no retry); when it resolves, a success alert is shown and no
error-severity alert appears. -/
theorem copyToClipboard_failure_path (text err : String) :
    (copyToClipboard text (Except.error err)).countP isWriteEffect = 1 ∧
    (copyToClipboard text (Except.error err)).countP isErrorAlert = 1 ∧
    ClipEffect.log ("Could not copy text: " ++ err) ∈
      copyToClipboard text (Except.error err) ∧
    (copyToClipboard text (Except.ok ())).countP isWriteEffect = 1 ∧
    (copyToClipboard text (Except.ok ())).countP isErrorAlert = 0 ∧
    ClipEffect.alert "Copied to clipboard!" "success" ∈
      copyToClipboard text (Except.ok ()) := by
  simp [copyToClipboard, isWriteEffect, isErrorAlert, List.countP_cons]
